import Mathlib

/-!
Shallow embedding of src/src-tauri/src/main.rs (the dao-copilot Tauri host
shell): the command dispatcher, the in-memory conversation store, the window
visibility toggle, the system-tray event handler and the global shortcut
closure.  Platform effects (window show/hide/focus, the visibility query)
are modelled by explicit outcome parameters; a Rust panic from .unwrap()
is a distinct outcome constructor.
-/

/-- Embeds struct PlatformInfo (main.rs lines 9-15). -/
structure PlatformInfo where
  platform : String
  arch : String
  version : String
  is_tauri : Bool
deriving DecidableEq, Repr

/-- Embeds struct AppState (main.rs lines 17-20): the HashMap is modelled
as an association list; since no code path ever inserts, only emptiness
and membership matter. -/
structure AppState where
  conversations : List (String × String)
deriving DecidableEq, Repr

/-- Embeds impl Default for AppState (main.rs lines 22-28): empty map. -/
def AppState.default : AppState := { conversations := [] }

/-- The window's platform-reported state: visible and focused flags. -/
structure WindowState where
  visible : Bool
  focused : Bool
deriving DecidableEq, Repr

/-- Outcomes of the platform window primitives during one call:
is_visible_err models the visibility query returning Err (the code applies
unwrap_or(false) to it); hide_err, show_err, focus_err are some msg when
window.hide() / window.show() / window.set_focus() fail with message msg,
and none when they succeed. -/
structure PlatformResults where
  is_visible_err : Bool
  hide_err : Option String
  show_err : Option String
  focus_err : Option String
deriving DecidableEq, Repr

/-- All platform actions succeed and the visibility query is accurate. -/
def allOk : PlatformResults := ⟨false, none, none, none⟩

/-- Embeds async fn greet (main.rs lines 31-34). -/
def greet (name : String) : Except String String :=
  Except.ok ("Hello, " ++ name ++ "! Welcome to DAO Copilot powered by Tauri.")

/-- The compile-time/OS constants read by get_platform_info:
std::env::consts::OS, std::env::consts::ARCH, and CARGO_PKG_VERSION. -/
structure PlatformConsts where
  os : String
  arch : String
  version : String
deriving DecidableEq, Repr

/-- Embeds async fn get_platform_info (main.rs lines 36-48). -/
def get_platform_info (c : PlatformConsts) : Except String PlatformInfo :=
  Except.ok { platform := c.os, arch := c.arch, version := c.version, is_tauri := true }

/-- Embeds async fn save_conversation (main.rs lines 50-60): it prints the
arguments (a side effect not modelled) and returns Ok(()) without touching
the managed state, which it only borrows immutably. -/
def save_conversation (conversation_id content : String) (state : AppState) :
    Except String Unit :=
  Except.ok ()

/-- Embeds async fn load_conversations (main.rs lines 62-67): it ignores the
managed state and returns a freshly constructed empty HashMap. -/
def load_conversations (state : AppState) :
    Except String (List (String × String)) :=
  Except.ok []

/-- Embeds async fn toggle_window_visibility (main.rs lines 69-78).  The
visibility query result passes through unwrap_or(false); hide/show/focus
errors are surfaced via map_err and the question-mark operator, so the
returned Except is the command's Result.  The second component is the
window state after the call (on a focus failure the window was already
shown). -/
def toggle_window_visibility (p : PlatformResults) (w : WindowState) :
    Except String Unit × WindowState :=
  if (if p.is_visible_err then false else w.visible) then
    match p.hide_err with
    | some e => (Except.error e, w)
    | none => (Except.ok (), { visible := false, focused := false })
  else
    match p.show_err with
    | some e => (Except.error e, w)
    | none =>
      match p.focus_err with
      | some e => (Except.error e, { visible := true, focused := w.focused })
      | none => (Except.ok (), { visible := true, focused := true })

/-- Iterates toggle_window_visibility n times with every platform action
succeeding, keeping only the resulting window state. -/
def toggleN : Nat → WindowState → WindowState
  | 0, w => w
  | n + 1, w => (toggle_window_visibility allOk (toggleN n w)).2

/-- Outcome of running a tray/shortcut handler: normal completion with the
new window state, a panic (a failed .unwrap()) with its message and the
window state at that moment, process exit via std::process::exit, or the
shortcut closure finding no "main" window. -/
inductive TrayOutcome where
  | ok (w : WindowState)
  | panicked (msg : String) (w : WindowState)
  | exited (code : Nat)
  | noWindow
deriving DecidableEq, Repr

/-- The tray events distinguished by handle_system_tray_event: a left click,
a menu-item click carrying the item identifier, and every other variant. -/
inductive SystemTrayEvent where
  | leftClick
  | menuItemClick (id : String)
  | other
deriving DecidableEq, Repr

/-- Embeds fn handle_system_tray_event (main.rs lines 94-128).  Every
platform call in it is followed by .unwrap(), so a platform failure is a
panic, not an error value; the quit item calls std::process::exit(0); an
unknown menu id and any other event variant are no-ops. -/
def handle_system_tray_event (p : PlatformResults) (w : WindowState) :
    SystemTrayEvent → TrayOutcome
  | SystemTrayEvent.leftClick =>
    if (if p.is_visible_err then false else w.visible) then
      match p.hide_err with
      | some e => TrayOutcome.panicked e w
      | none => TrayOutcome.ok { visible := false, focused := false }
    else
      match p.show_err with
      | some e => TrayOutcome.panicked e w
      | none =>
        match p.focus_err with
        | some e => TrayOutcome.panicked e { visible := true, focused := w.focused }
        | none => TrayOutcome.ok { visible := true, focused := true }
  | SystemTrayEvent.menuItemClick id =>
    if id = "quit" then
      TrayOutcome.exited 0
    else if id = "show" then
      match p.show_err with
      | some e => TrayOutcome.panicked e w
      | none =>
        match p.focus_err with
        | some e => TrayOutcome.panicked e { visible := true, focused := w.focused }
        | none => TrayOutcome.ok { visible := true, focused := true }
    else if id = "hide" then
      match p.hide_err with
      | some e => TrayOutcome.panicked e w
      | none => TrayOutcome.ok { visible := false, focused := false }
    else
      TrayOutcome.ok w
  | SystemTrayEvent.other => TrayOutcome.ok w

/-- Embeds the global shortcut closure registered in main's setup
(main.rs lines 142-149): if the "main" window exists it runs the same
unwrap-based toggle as the tray left click, else it does nothing. -/
def global_shortcut_handler (p : PlatformResults) :
    Option WindowState → TrayOutcome
  | none => TrayOutcome.noWindow
  | some w =>
    if (if p.is_visible_err then false else w.visible) then
      match p.hide_err with
      | some e => TrayOutcome.panicked e w
      | none => TrayOutcome.ok { visible := false, focused := false }
    else
      match p.show_err with
      | some e => TrayOutcome.panicked e w
      | none =>
        match p.focus_err with
        | some e => TrayOutcome.panicked e { visible := true, focused := w.focused }
        | none => TrayOutcome.ok { visible := true, focused := true }

/-- Embeds the shortcut registration in main's setup (main.rs lines 141-153):
register(...).unwrap_or_else logs the failure and continues, so the result
is whether the binding is active together with the logged line; there is no
fatal path. -/
def setup_register (registerResult : Option String) : Bool × Option String :=
  match registerResult with
  | some e => (false, some ("Failed to register global shortcut: " ++ e))
  | none => (true, none)

/-- Process-wide state reachable from a dispatcher call: whether the global
shortcut got registered at startup, the window, and the managed AppState. -/
structure ProcState where
  shortcutRegistered : Bool
  window : WindowState
  app : AppState
deriving DecidableEq, Repr

/-- The five commands of the invoke handler (main.rs lines 156-162), with
the platform outcomes a toggle call will meet carried as data. -/
inductive Command where
  | greetCmd (name : String)
  | getPlatformInfoCmd
  | saveConversationCmd (conversation_id content : String)
  | loadConversationsCmd
  | toggleWindowVisibilityCmd (p : PlatformResults)
deriving DecidableEq, Repr

/-- A dispatcher response: the success payload of each command, or the
error string of a failed Result. -/
inductive Response where
  | ok_string (s : String)
  | ok_info (i : PlatformInfo)
  | ok_unit
  | ok_map (m : List (String × String))
  | err (msg : String)
deriving DecidableEq, Repr

/-- One dispatcher invocation: routes the command to the embedded function
and pairs the response with the resulting process state. -/
def runCommand (c : PlatformConsts) (s : ProcState) : Command → Response × ProcState
  | Command.greetCmd name =>
    (match greet name with
     | Except.ok msg => Response.ok_string msg
     | Except.error e => Response.err e, s)
  | Command.getPlatformInfoCmd =>
    (match get_platform_info c with
     | Except.ok i => Response.ok_info i
     | Except.error e => Response.err e, s)
  | Command.saveConversationCmd conversation_id content =>
    (match save_conversation conversation_id content s.app with
     | Except.ok _ => Response.ok_unit
     | Except.error e => Response.err e, s)
  | Command.loadConversationsCmd =>
    (match load_conversations s.app with
     | Except.ok m => Response.ok_map m
     | Except.error e => Response.err e, s)
  | Command.toggleWindowVisibilityCmd p =>
    (match (toggle_window_visibility p s.window).1 with
     | Except.ok _ => Response.ok_unit
     | Except.error e => Response.err e,
     { s with window := (toggle_window_visibility p s.window).2 })

/-- Runs a sequence of dispatcher invocations left to right. -/
def runCommands (c : PlatformConsts) : ProcState → List Command → ProcState
  | s, [] => s
  | s, cmd :: rest => runCommands c (runCommand c s cmd).2 rest

/-- Concrete platform constants for concrete evaluations. -/
def demoConsts : PlatformConsts := ⟨"linux", "x86_64", "0.1.0"⟩

/-- The process state right after startup: AppState::default() is managed,
the window starts hidden, the shortcut registered. -/
def initialProcState : ProcState :=
  { shortcutRegistered := true
    window := { visible := false, focused := false }
    app := AppState.default }

/-- Helper: with every platform action succeeding, n toggles from the hidden
state land on visible-and-focused exactly when n is odd. -/
theorem toggleN_parity (n : Nat) :
    toggleN n { visible := false, focused := false } =
      if n % 2 = 1 then { visible := true, focused := true }
      else { visible := false, focused := false } := by
  induction n with
  | zero => rfl
  | succ k ih =>
    simp only [toggleN, ih]
    rcases Nat.mod_two_eq_zero_or_one k with h | h
    · have h2 : (k + 1) % 2 = 1 := by omega
      simp [h, h2, toggle_window_visibility, allOk]
    · have h2 : (k + 1) % 2 = 0 := by omega
      simp [h, h2, toggle_window_visibility, allOk]

/-- C1 counterexample: dispatching save_conversation("a","x") and then
load_conversations from the initial state does NOT yield a mapping
containing the entry ("a","x"): the load response is the empty mapping. -/
theorem c1_counterexample :
    ¬ ∃ m, (runCommand demoConsts
        (runCommand demoConsts initialProcState
          (Command.saveConversationCmd "a" "x")).2
        Command.loadConversationsCmd).1 = Response.ok_map m ∧ ("a", "x") ∈ m := by
  rintro ⟨m, hm, hmem⟩
  have h0 : (runCommand demoConsts
      (runCommand demoConsts initialProcState
        (Command.saveConversationCmd "a" "x")).2
      Command.loadConversationsCmd).1
      = Response.ok_map ([] : List (String × String)) := rfl
  rw [h0] at hm
  injection hm with h
  subst h
  exact absurd hmem (List.not_mem_nil _)

/-- C1 (amended): for every id and content and every starting state, the
dispatched save_conversation returns unit success without writing, and the
following load_conversations returns the empty mapping, so the saved entry
is not present. -/
theorem c1_save_then_load_empty (conversation_id content : String)
    (c : PlatformConsts) (s : ProcState) :
    (runCommand c s (Command.saveConversationCmd conversation_id content)).1
      = Response.ok_unit ∧
    (runCommand c
        (runCommand c s (Command.saveConversationCmd conversation_id content)).2
        Command.loadConversationsCmd).1 = Response.ok_map [] :=
  ⟨rfl, rfl⟩

/-- C2 counterexample: after save_conversation("a","x") then
save_conversation("a","y"), load_conversations does NOT yield a mapping in
which "a" maps to "y": the load response is the empty mapping. -/
theorem c2_counterexample :
    ¬ ∃ m, (runCommand demoConsts
        (runCommand demoConsts
          (runCommand demoConsts initialProcState
            (Command.saveConversationCmd "a" "x")).2
          (Command.saveConversationCmd "a" "y")).2
        Command.loadConversationsCmd).1 = Response.ok_map m ∧ ("a", "y") ∈ m := by
  rintro ⟨m, hm, hmem⟩
  have h0 : (runCommand demoConsts
      (runCommand demoConsts
        (runCommand demoConsts initialProcState
          (Command.saveConversationCmd "a" "x")).2
        (Command.saveConversationCmd "a" "y")).2
      Command.loadConversationsCmd).1
      = Response.ok_map ([] : List (String × String)) := rfl
  rw [h0] at hm
  injection hm with h
  subst h
  exact absurd hmem (List.not_mem_nil _)

/-- C2 (amended): for every id, both contents and every starting state, two
dispatched saves under the same id followed by load_conversations yield the
empty mapping: neither save writes, so the id maps to nothing at all. -/
theorem c2_double_save_load_empty (conversation_id x y : String)
    (c : PlatformConsts) (s : ProcState) :
    (runCommand c
        (runCommand c
          (runCommand c s (Command.saveConversationCmd conversation_id x)).2
          (Command.saveConversationCmd conversation_id y)).2
        Command.loadConversationsCmd).1 = Response.ok_map [] :=
  rfl

/-- C3: starting hidden, with every platform action succeeding, after n
toggles the window is visible exactly when n is odd and hidden exactly when
n is even. -/
theorem c3_toggle_alternates (n : Nat) :
    ((toggleN n { visible := false, focused := false }).visible = true ↔ n % 2 = 1) ∧
    ((toggleN n { visible := false, focused := false }).visible = false ↔ n % 2 = 0) := by
  rcases Nat.mod_two_eq_zero_or_one n with h | h <;> simp [toggleN_parity, h]

/-- C4: with the platform actions succeeding, one toggle call reads the
reported visibility and acts on it: a visible window ends hidden and not
focused, a hidden window ends visible and focused. -/
theorem c4_toggle_reads_current_state (w : WindowState) :
    toggle_window_visibility allOk w =
      (Except.ok (), if w.visible then { visible := false, focused := false }
        else { visible := true, focused := true }) := by
  obtain ⟨v, f⟩ := w
  cases v <;> rfl

/-- C5 (amended): when the visibility query succeeds, each way a platform
action can fail with message e — the hide action on a visible window, the
show action on a hidden window, or the focus action after a successful show
on a hidden window — makes the dispatcher command toggle_window_visibility
surface the failure as the error value e, while the tray left click, the
tray hide or show menu item reaching the same failing action, and the
global shortcut closure panic on the failed unwrap instead of returning an
error value. -/
theorem c5_dispatcher_errors_tray_panics (p : PlatformResults) (w : WindowState)
    (e : String) (hq : p.is_visible_err = false) :
    (w.visible = true → p.hide_err = some e →
      (toggle_window_visibility p w).1 = Except.error e ∧
      handle_system_tray_event p w SystemTrayEvent.leftClick
        = TrayOutcome.panicked e w ∧
      handle_system_tray_event p w (SystemTrayEvent.menuItemClick "hide")
        = TrayOutcome.panicked e w ∧
      global_shortcut_handler p (some w) = TrayOutcome.panicked e w) ∧
    (w.visible = false → p.show_err = some e →
      (toggle_window_visibility p w).1 = Except.error e ∧
      handle_system_tray_event p w SystemTrayEvent.leftClick
        = TrayOutcome.panicked e w ∧
      handle_system_tray_event p w (SystemTrayEvent.menuItemClick "show")
        = TrayOutcome.panicked e w ∧
      global_shortcut_handler p (some w) = TrayOutcome.panicked e w) ∧
    (w.visible = false → p.show_err = none → p.focus_err = some e →
      (toggle_window_visibility p w).1 = Except.error e ∧
      handle_system_tray_event p w SystemTrayEvent.leftClick
        = TrayOutcome.panicked e { visible := true, focused := w.focused } ∧
      handle_system_tray_event p w (SystemTrayEvent.menuItemClick "show")
        = TrayOutcome.panicked e { visible := true, focused := w.focused } ∧
      global_shortcut_handler p (some w)
        = TrayOutcome.panicked e { visible := true, focused := w.focused }) := by
  obtain ⟨qe, he, se, fe⟩ := p
  obtain ⟨v, f⟩ := w
  subst hq
  refine ⟨?_, ?_, ?_⟩
  · intro hv hh
    subst hv
    subst hh
    exact ⟨rfl, rfl, rfl, rfl⟩
  · intro hv hs
    subst hv
    subst hs
    exact ⟨rfl, rfl, rfl, rfl⟩
  · intro hv hs hf
    subst hv
    subst hs
    subst hf
    exact ⟨rfl, rfl, rfl, rfl⟩

/-- C5 witness: concrete instances of the three failing actions of the
amended claim: hide refused on a visible window, show refused on a hidden
window, and focus refused after a successful show on a hidden window. -/
theorem c5_witness :
    ((toggle_window_visibility ⟨false, some "denied", none, none⟩ ⟨true, true⟩).1
        = Except.error "denied" ∧
      handle_system_tray_event ⟨false, some "denied", none, none⟩ ⟨true, true⟩
        SystemTrayEvent.leftClick = TrayOutcome.panicked "denied" ⟨true, true⟩ ∧
      handle_system_tray_event ⟨false, some "denied", none, none⟩ ⟨true, true⟩
        (SystemTrayEvent.menuItemClick "hide")
        = TrayOutcome.panicked "denied" ⟨true, true⟩ ∧
      global_shortcut_handler ⟨false, some "denied", none, none⟩
        (some ⟨true, true⟩) = TrayOutcome.panicked "denied" ⟨true, true⟩) ∧
    ((toggle_window_visibility ⟨false, none, some "refused", none⟩ ⟨false, false⟩).1
        = Except.error "refused" ∧
      handle_system_tray_event ⟨false, none, some "refused", none⟩ ⟨false, false⟩
        SystemTrayEvent.leftClick = TrayOutcome.panicked "refused" ⟨false, false⟩ ∧
      handle_system_tray_event ⟨false, none, some "refused", none⟩ ⟨false, false⟩
        (SystemTrayEvent.menuItemClick "show")
        = TrayOutcome.panicked "refused" ⟨false, false⟩ ∧
      global_shortcut_handler ⟨false, none, some "refused", none⟩
        (some ⟨false, false⟩) = TrayOutcome.panicked "refused" ⟨false, false⟩) ∧
    ((toggle_window_visibility ⟨false, none, none, some "nofocus"⟩ ⟨false, false⟩).1
        = Except.error "nofocus" ∧
      handle_system_tray_event ⟨false, none, none, some "nofocus"⟩ ⟨false, false⟩
        SystemTrayEvent.leftClick = TrayOutcome.panicked "nofocus" ⟨true, false⟩ ∧
      handle_system_tray_event ⟨false, none, none, some "nofocus"⟩ ⟨false, false⟩
        (SystemTrayEvent.menuItemClick "show")
        = TrayOutcome.panicked "nofocus" ⟨true, false⟩ ∧
      global_shortcut_handler ⟨false, none, none, some "nofocus"⟩
        (some ⟨false, false⟩) = TrayOutcome.panicked "nofocus" ⟨true, false⟩) :=
  ⟨(c5_dispatcher_errors_tray_panics ⟨false, some "denied", none, none⟩
      ⟨true, true⟩ "denied" rfl).1 rfl rfl,
    (c5_dispatcher_errors_tray_panics ⟨false, none, some "refused", none⟩
      ⟨false, false⟩ "refused" rfl).2.1 rfl rfl,
    (c5_dispatcher_errors_tray_panics ⟨false, none, none, some "nofocus"⟩
      ⟨false, false⟩ "nofocus" rfl).2.2 rfl rfl rfl⟩

/-- C5 counterexample: at a concrete input (visible window, hide refused
with message denied) the tray left click ends in a panic, not in an error
value returned to a caller, refuting the claim for the tray trigger. -/
theorem c5_counterexample :
    handle_system_tray_event ⟨false, some "denied", none, none⟩ ⟨true, true⟩
      SystemTrayEvent.leftClick = TrayOutcome.panicked "denied" ⟨true, true⟩ ∧
    ∀ w, handle_system_tray_event ⟨false, some "denied", none, none⟩
      ⟨true, true⟩ SystemTrayEvent.leftClick ≠ TrayOutcome.ok w := by
  exact ⟨rfl, fun w h => by cases h⟩

/-- C6: a tray menu click on the quit item terminates the process with exit
code 0, for every window state and every platform outcome. -/
theorem c6_quit_exits (p : PlatformResults) (w : WindowState) :
    handle_system_tray_event p w (SystemTrayEvent.menuItemClick "quit")
      = TrayOutcome.exited 0 := rfl

/-- C7: shortcut registration failure is absorbed by unwrap_or_else (startup
continues, the failure message is logged, the binding stays absent), and the
dispatched toggle_window_visibility command behaves identically whether or
not the shortcut got registered: same response, same resulting window. -/
theorem c7_registration_failure_nonfatal (e : String) (c : PlatformConsts)
    (p : PlatformResults) (w : WindowState) (a : AppState) (r r' : Bool) :
    setup_register (some e)
      = (false, some ("Failed to register global shortcut: " ++ e)) ∧
    (runCommand c { shortcutRegistered := r, window := w, app := a }
        (Command.toggleWindowVisibilityCmd p)).1
      = (runCommand c { shortcutRegistered := r', window := w, app := a }
        (Command.toggleWindowVisibilityCmd p)).1 ∧
    (runCommand c { shortcutRegistered := r, window := w, app := a }
        (Command.toggleWindowVisibilityCmd p)).2.window
      = (runCommand c { shortcutRegistered := r', window := w, app := a }
        (Command.toggleWindowVisibilityCmd p)).2.window :=
  ⟨rfl, rfl, rfl⟩

/-- Helper: no dispatcher command changes the managed AppState. -/
theorem runCommand_preserves_app (c : PlatformConsts) (s : ProcState)
    (cmd : Command) : ((runCommand c s cmd).2).app = s.app := by
  cases cmd <;> rfl

/-- Helper: no sequence of dispatcher commands changes the managed AppState. -/
theorem runCommands_preserves_app (c : PlatformConsts) (cmds : List Command) :
    ∀ s : ProcState, (runCommands c s cmds).app = s.app := by
  induction cmds with
  | nil => intro s; rfl
  | cons cmd rest ih =>
    intro s
    have h1 : runCommands c s (cmd :: rest)
        = runCommands c (runCommand c s cmd).2 rest := rfl
    rw [h1, ih, runCommand_preserves_app]

/-- C8: starting from AppState::default, after every sequence of dispatcher
commands the conversations mapping is still empty; save_conversation
returns Ok without writing for every input and state, and load_conversations
returns a fresh empty mapping for every state. -/
theorem c8_store_stays_empty (c : PlatformConsts) (cmds : List Command)
    (r0 : Bool) (w0 : WindowState) :
    (runCommands c { shortcutRegistered := r0, window := w0, app := AppState.default }
        cmds).app.conversations = [] ∧
    (∀ conversation_id content a,
      save_conversation conversation_id content a = Except.ok ()) ∧
    (∀ a, load_conversations a = Except.ok []) := by
  refine ⟨?_, fun _ _ _ => rfl, fun _ => rfl⟩
  rw [runCommands_preserves_app]
  rfl

/-- C9: when the platform visibility query fails, the toggle paths do not
surface that error: they treat the window as hidden, so with the actions
succeeding the dispatcher toggle, the tray left click and the shortcut
closure all show and focus the window, whatever its actual state; and even
with the hide action also failing, the error surfaced by the dispatcher
toggle is the one of the show attempt. -/
theorem c9_query_failure_means_show (w : WindowState) (e1 e2 : String) :
    toggle_window_visibility ⟨true, none, none, none⟩ w
      = (Except.ok (), { visible := true, focused := true }) ∧
    handle_system_tray_event ⟨true, none, none, none⟩ w SystemTrayEvent.leftClick
      = TrayOutcome.ok { visible := true, focused := true } ∧
    global_shortcut_handler ⟨true, none, none, none⟩ (some w)
      = TrayOutcome.ok { visible := true, focused := true } ∧
    (toggle_window_visibility ⟨true, some e1, some e2, none⟩ w).1
      = Except.error e2 :=
  ⟨rfl, rfl, rfl, rfl⟩

/-- C10: get_platform_info never returns an error; its result is exactly the
record built from the compile-time/OS constants, with is_tauri true. -/
theorem c10_platform_info_total (c : PlatformConsts) :
    get_platform_info c
      = Except.ok (PlatformInfo.mk c.os c.arch c.version true) :=
  rfl
